import Mathlib

/-
  Verification of the FRED ocean-cleanup game core against its specification.

  The embedding translates the Python sources into Lean:
    - pygame.math.Vector2            -> Vec2 (pairs of reals)
    - Python floats                  -> real numbers
    - Python ints                    -> Int / Nat
    - pygame.Rect                    -> IRect (integer rectangle)
    - the global random module       -> explicit RNG-state passing over an
                                        abstract generator type
  Stateful methods become functions from the old record to the new record.
-/

set_option maxHeartbeats 1000000

open Classical

noncomputable section

/-- Two-dimensional vector over the reals, modelling pygame.math.Vector2. -/
@[ext]
structure Vec2 where
  x : ℝ
  y : ℝ

instance : Add Vec2 := ⟨fun a b => ⟨a.x + b.x, a.y + b.y⟩⟩

instance : Neg Vec2 := ⟨fun a => ⟨-a.x, -a.y⟩⟩

instance : HMul Vec2 ℝ Vec2 := ⟨fun a c => ⟨a.x * c, a.y * c⟩⟩

instance : HDiv Vec2 ℝ Vec2 := ⟨fun a c => ⟨a.x / c, a.y / c⟩⟩

/-- Cosine of an angle given in degrees. -/
def cosDeg (a : ℝ) : ℝ := Real.cos (a * Real.pi / 180)

/-- Sine of an angle given in degrees. -/
def sinDeg (a : ℝ) : ℝ := Real.sin (a * Real.pi / 180)

/-- pygame Vector2.rotate: rotates a vector by an angle in degrees
    (counterclockwise in the mathematical convention pygame uses). -/
def Vec2.rotate (v : Vec2) (θ : ℝ) : Vec2 :=
  ⟨v.x * cosDeg θ - v.y * sinDeg θ, v.x * sinDeg θ + v.y * cosDeg θ⟩

/-- pygame Vector2.magnitude: Euclidean length. -/
def Vec2.magnitude (v : Vec2) : ℝ := Real.sqrt (v.x ^ 2 + v.y ^ 2)

/-- Python float modulo with the positive modulus 360, as in the source line
    that wraps the angle: the result lies in [0, 360) for finite input. -/
def wrap360 (x : ℝ) : ℝ := x - 360 * ⌊x / 360⌋

/- Physics constants from src/src/settings.py. -/

def SCREEN_WIDTH : ℤ := 1280

def SCREEN_HEIGHT : ℤ := 720

def MAX_THRUST : ℝ := 400

def MAX_TORQUE : ℝ := 200

def LINEAR_DRAG_COEFFICIENT : ℝ := 0.8

def ANGULAR_DRAG : ℝ := 0.7

def MASS : ℝ := 100

/-- State of the Player entity from src/src/entities/player.py.
    The physics constants are stored on the instance, as in the source;
    the sprite image and rect are presentation data not carried here.
    The direction attribute is only created by the first update call in the
    source; here it is a field initialised to the angle-zero direction. -/
structure Player where
  position : Vec2
  velocity : Vec2
  acceleration : Vec2
  direction : Vec2
  angle : ℝ
  angular_velocity : ℝ
  left_thrust : ℝ
  right_thrust : ℝ
  max_thrust : ℝ
  max_torque : ℝ
  linear_drag_coefficient : ℝ
  angular_drag : ℝ
  mass : ℝ

/-- Player.__init__ from src/src/entities/player.py (physics state only). -/
def Player.init (pos : Vec2) : Player :=
  { position := pos
    velocity := ⟨0, 0⟩
    acceleration := ⟨0, 0⟩
    direction := Vec2.rotate ⟨1, 0⟩ 0
    angle := 0
    angular_velocity := 0
    left_thrust := 0
    right_thrust := 0
    max_thrust := MAX_THRUST
    max_torque := MAX_TORQUE
    linear_drag_coefficient := LINEAR_DRAG_COEFFICIENT
    angular_drag := ANGULAR_DRAG
    mass := MASS }

/-- Player.update from src/src/entities/player.py, in manual-control mode
    (the keyboard poll is skipped; thrust intents are the state fields, as in
    the tests that set manual control). Steps 2 to 5 of the method body,
    in source order; the visual step 6 only touches presentation data. -/
def Player.update (s : Player) (dt : ℝ) : Player :=
  let total_thrust := (s.left_thrust + s.right_thrust) * s.max_thrust
  let torque := (s.left_thrust - s.right_thrust) * s.max_torque
  let direction := Vec2.rotate ⟨1, 0⟩ (-s.angle)
  let av1 := s.angular_velocity * (1 - s.angular_drag * dt)
  let av2 := av1 + torque * dt / s.mass
  let angle1 := wrap360 (s.angle + av2 * dt)
  let thrust_force := direction * total_thrust
  let drag_force := -s.velocity * s.velocity.magnitude * s.linear_drag_coefficient
  let total_force := thrust_force + drag_force
  let acceleration := total_force / s.mass
  let velocity1 := s.velocity + acceleration * dt
  let position1 := s.position + velocity1 * dt
  { s with
    position := position1
    velocity := velocity1
    acceleration := acceleration
    direction := direction
    angle := angle1
    angular_velocity := av2 }

/-- The per-tick algorithm exactly as section 4.1 of the specification words
    it: totalThrust and torque from the thrust intents, forward direction from
    the heading before this tick updates it, angular drag multiplicatively
    then torque additively, heading integration and wrap, then semi-implicit
    Euler for the linear state. Written from the specification text, to be
    compared against Player.update, which is written from the source. -/
def specVehicleUpdate (s : Player) (dt : ℝ) : Player :=
  let totalThrust := (s.left_thrust + s.right_thrust) * s.max_thrust
  let torque := (s.left_thrust - s.right_thrust) * s.max_torque
  let direction := Vec2.rotate ⟨1, 0⟩ (-s.angle)
  let angularVelocityDragged := s.angular_velocity * (1 - s.angular_drag * dt)
  let angularVelocityNew := angularVelocityDragged + torque * dt / s.mass
  let headingNew := wrap360 (s.angle + angularVelocityNew * dt)
  let thrustForce := direction * totalThrust
  let dragForce := -s.velocity * s.velocity.magnitude * s.linear_drag_coefficient
  let accelerationNew := (thrustForce + dragForce) / s.mass
  let velocityNew := s.velocity + accelerationNew * dt
  let positionNew := s.position + velocityNew * dt
  { s with
    position := positionNew
    velocity := velocityNew
    acceleration := accelerationNew
    direction := direction
    angle := headingNew
    angular_velocity := angularVelocityNew }

/-- Integer rectangle modelling pygame.Rect: top-left corner and
    nonnegative width and height. -/
structure IRect where
  x : ℤ
  y : ℤ
  w : ℕ
  h : ℕ
  deriving DecidableEq

def IRect.left (r : IRect) : ℤ := r.x

def IRect.right (r : IRect) : ℤ := r.x + r.w

def IRect.top (r : IRect) : ℤ := r.y

def IRect.bottom (r : IRect) : ℤ := r.y + r.h

/-- pygame Rect.colliderect: the two rectangles overlap in both axes,
    with strict inequalities (touching edges do not collide). -/
def colliderect (a b : IRect) : Bool :=
  decide (a.x < b.x + b.w) && decide (a.y < b.y + b.h) &&
    decide (b.x < a.x + a.w) && decide (b.y < a.y + a.h)

/-- Python int() applied to a float: truncation toward zero. -/
def pyTrunc (x : ℝ) : ℤ := if 0 ≤ x then ⌊x⌋ else -⌊-x⌋

/-- MockPlayer from tests/conftest.py: the test double of FRED used by the
    physics, boundary, scoring and collection suites. -/
structure MockPlayer where
  position : Vec2
  velocity : Vec2
  angle : ℝ
  rect : IRect
  left_thrust_active : Bool := false
  right_thrust_active : Bool := false
  thrust_power : ℝ := 100
  drag_coefficient : ℝ := 0.95
  turn_rate : ℝ := 180

/-- One axis of the boundary branch in MockPlayer.update: the
    if / elif / fall-through pair that clamps a position coordinate and
    zeroes the matching velocity component. -/
def clampAxis (pos v lo hi : ℝ) : ℝ × ℝ :=
  if pos < lo then (lo, 0) else if hi < pos then (hi, 0) else (pos, v)

/-- MockPlayer.update from tests/conftest.py: exponential drag, position
    integration, per-axis boundary clamping against the world rectangle
    shrunk by the rect half-extents (integer division by 2 as in the
    source), then the integer rect recentring. -/
def MockPlayer.update (p : MockPlayer) (dt : ℝ) (world_bounds : IRect) : MockPlayer :=
  let velocity1 := p.velocity * (p.drag_coefficient ^ dt)
  let position1 := p.position + velocity1 * dt
  let xr := clampAxis position1.x velocity1.x
    ((world_bounds.left + (p.rect.w / 2 : ℕ) : ℤ) : ℝ)
    ((world_bounds.right - (p.rect.w / 2 : ℕ) : ℤ) : ℝ)
  let yr := clampAxis position1.y velocity1.y
    ((world_bounds.top + (p.rect.h / 2 : ℕ) : ℤ) : ℝ)
    ((world_bounds.bottom - (p.rect.h / 2 : ℕ) : ℤ) : ℝ)
  { p with
    position := ⟨xr.1, yr.1⟩
    velocity := ⟨xr.2, yr.2⟩
    rect := { p.rect with
      x := pyTrunc xr.1 - (p.rect.w / 2 : ℕ)
      y := pyTrunc yr.1 - (p.rect.h / 2 : ℕ) } }

/-- MockBottle from tests/conftest.py. -/
structure MockBottle where
  position : Vec2
  rect : IRect
  collected : Bool := false

/-- MockBottle.collect: returns whether the bottle was newly collected,
    together with the updated bottle. -/
def MockBottle.collect (b : MockBottle) : Bool × MockBottle :=
  if b.collected then (false, b) else (true, { b with collected := true })

/-- GameWorld from tests/conftest.py. -/
structure GameWorld where
  player : MockPlayer
  bottles : List MockBottle
  world_bounds : IRect
  score : ℝ := 0
  bottles_remaining : ℤ := 0
  state : String := "START_SCREEN"

/-- GameWorld.update_score from tests/conftest.py: each independently
    active thruster adds dt to the score. -/
def GameWorld.update_score (w : GameWorld) (dt : ℝ) : GameWorld :=
  let score1 := if w.player.left_thrust_active then w.score + dt else w.score
  let score2 := if w.player.right_thrust_active then score1 + dt else score1
  { w with score := score2 }

/-- The loop body of GameWorld.check_collisions, processing the bottle list
    in order while threading bottles_remaining and the session state string:
    each uncollected bottle whose rect collides with the player rect is
    collected, the remaining count is decremented, and the state flips to
    END_SCREEN exactly when the count reaches zero at that decrement. -/
def checkCollisionsAux (pr : IRect) :
    List MockBottle → ℤ → String → List MockBottle × ℤ × String
  | [], rem, st => ([], rem, st)
  | b :: rest, rem, st =>
    if !b.collected && colliderect pr b.rect then
      let c := MockBottle.collect b
      if c.1 then
        let rem2 := rem - 1
        let st2 := if rem2 = 0 then "END_SCREEN" else st
        let r := checkCollisionsAux pr rest rem2 st2
        (c.2 :: r.1, r.2.1, r.2.2)
      else
        let r := checkCollisionsAux pr rest rem st
        (c.2 :: r.1, r.2.1, r.2.2)
    else
      let r := checkCollisionsAux pr rest rem st
      (b :: r.1, r.2.1, r.2.2)

/-- GameWorld.check_collisions from tests/conftest.py. -/
def GameWorld.check_collisions (w : GameWorld) : GameWorld :=
  let r := checkCollisionsAux w.player.rect w.bottles w.bottles_remaining w.state
  { w with bottles := r.1, bottles_remaining := r.2.1, state := r.2.2 }

/-- Number of thrusters currently active on the mock player. -/
def thrustersActive (p : MockPlayer) : ℕ :=
  (if p.left_thrust_active then 1 else 0) + (if p.right_thrust_active then 1 else 0)

/-- Number of bottles already collected. -/
def countCollected (bs : List MockBottle) : ℕ :=
  (bs.filter fun b => b.collected).length

/-- Number of bottles not yet collected. -/
def countUncollected (bs : List MockBottle) : ℕ :=
  (bs.filter fun b => !b.collected).length

/-- Number of bottles a single check_collisions pass newly collects:
    uncollected and overlapping the player rect. -/
def newlyCollected (pr : IRect) (bs : List MockBottle) : ℕ :=
  (bs.filter fun b => !b.collected && colliderect pr b.rect).length

/-- The bottle positions drawn inside tests/conftest.py _create_game when no
    explicit positions are supplied: one x and one y draw per bottle with the
    fixed margin 50, using the global random module. The global RNG is
    modelled by explicit state passing over an abstract generator type R;
    randintF g lo hi returns the drawn integer and the advanced state. -/
def drawBottlePositions {R : Type} (randintF : R → ℤ → ℤ → ℤ × R) (W H : ℤ) :
    ℕ → R → List (ℤ × ℤ) × R
  | 0, g => ([], g)
  | n + 1, g =>
    let xr := randintF g 50 (W - 50)
    let yr := randintF xr.2 50 (H - 50)
    let rest := drawBottlePositions randintF W H n yr.2
    ((xr.1, yr.1) :: rest.1, rest.2)

/-- The spawning part of tests/conftest.py _create_game: when a seed is
    supplied, random.seed replaces the global RNG state with seedF seed
    before any draw; with no seed the draws consume the ambient global
    state g. Returns the spawned position sequence. -/
def createGamePositions {R : Type} (seedF : ℕ → R)
    (randintF : R → ℤ → ℤ → ℤ × R) (W H : ℤ) (count : ℕ)
    (seed : Option ℕ) (g : R) : List (ℤ × ℤ) :=
  let g1 := match seed with
    | some s => seedF s
    | none => g
  (drawBottlePositions randintF W H count g1).1

/-- A state object as the driver in src/src/game.py sees it: the flags of
    src/src/states/base.py plus an abstract payload carrying the internals
    of the concrete state object. -/
structure GState (α : Type) where
  done : Bool
  next_state_name : Option String
  quit : Bool
  payload : α

/-- The Game record of src/src/game.py: registered state table, the
    current-state name and pointer, and the main-loop running flag. -/
structure Game (α : Type) where
  states : List (String × GState α)
  current_state_name : String
  current_state : GState α
  running : Bool

/-- The Python membership test "next_state_name in self.states" followed by
    the dictionary read: None is never a key of the table. -/
def stateLookup {α : Type} (key : Option String)
    (l : List (String × GState α)) : Option (GState α) :=
  match key with
  | none => none
  | some k => List.lookup k l

/-- Writing a mutated state object back under its key, modelling that the
    Python dict holds the very object the methods mutate in place. -/
def writeState {α : Type} (k : String) (v : GState α)
    (l : List (String × GState α)) : List (String × GState α) :=
  l.map fun p => if p.1 = k then (p.1, v) else p

/-- Game.flip_state from src/src/game.py. cleanupF models the outgoing
    state's cleanup method (the mutated object plus the persistent handoff
    data); startupF models the incoming state's startup method, receiving
    the handoff data and the previous state name. When next_state_name is
    not a key of the table, the running flag is cleared and nothing else
    happens. -/
def Game.flip_state {α β : Type} (cleanupF : GState α → GState α × β)
    (startupF : GState α → β → String → GState α) (g : Game α) : Game α :=
  match g.current_state.next_state_name with
  | none => { g with running := false }
  | some k =>
    match List.lookup k g.states with
    | none => { g with running := false }
    | some st =>
      let cr := cleanupF g.current_state
      let previous_state_name := g.current_state_name
      let newSt := startupF st cr.2 previous_state_name
      { g with
        states := writeState k newSt (writeState previous_state_name cr.1 g.states)
        current_state_name := k
        current_state := newSt }

/-- GameplayState of src/src/states/gameplay.py: the physics player, the
    bottle sprite group (each bottle carried as its collision rect, the only
    datum the update loop reads), the integer score and the spawn timer. -/
structure GameplayState where
  player : Player
  bottles : List IRect
  score : ℤ
  bottle_spawn_timer : ℝ
  bottle_spawn_interval : ℝ

/-- GameplayState.spawn_bottle from src/src/states/gameplay.py: one random
    in-bounds position with margin 50, and the 30 by 50 bottle rect centred
    there (Bottle.__init__). -/
def spawnBottle {R : Type} (randintF : R → ℤ → ℤ → ℤ × R) (g : R) : IRect × R :=
  let xr := randintF g 50 (SCREEN_WIDTH - 50)
  let yr := randintF xr.2 50 (SCREEN_HEIGHT - 50)
  (⟨xr.1 - 15, yr.1 - 25, 30, 50⟩, yr.2)

/-- GameplayState.update from src/src/states/gameplay.py.
    all_sprites.update(dt) advances the player physics (Bottle overrides no
    update method, so bottles are static); pygame.sprite.spritecollide with
    dokill removes every bottle whose rect overlaps the player rect and the
    score grows by their number; then the spawn timer accumulates dt and one
    bottle is spawned when it reaches the interval, resetting the timer.
    rectOf models the pygame sprite rect of the player after its visual
    update (the rotated-image bounding box centred on the position);
    randintF models random.randint on the global RNG state. -/
def GameplayState.update {R : Type} (rectOf : Player → IRect)
    (randintF : R → ℤ → ℤ → ℤ × R) (s : GameplayState) (dt : ℝ) (g : R) :
    GameplayState × R :=
  let player1 := s.player.update dt
  let collected := s.bottles.filter fun br => colliderect (rectOf player1) br
  let bottles1 := s.bottles.filter fun br => !colliderect (rectOf player1) br
  let score1 := s.score + collected.length
  let timer1 := s.bottle_spawn_timer + dt
  if s.bottle_spawn_interval ≤ timer1 then
    let nb := spawnBottle randintF g
    ({ s with
        player := player1
        bottles := bottles1 ++ [nb.1]
        score := score1
        bottle_spawn_timer := 0 }, nb.2)
  else
    ({ s with
        player := player1
        bottles := bottles1
        score := score1
        bottle_spawn_timer := timer1 }, g)

/- Concrete sample values used by witness and counterexample theorems. -/

/-- The player of the default test game_factory world: centre of the 800 by
    600 world, catamaran rect 40 by 60 centred there. -/
def factoryPlayer : MockPlayer :=
  { position := ⟨400, 300⟩
    velocity := ⟨0, 0⟩
    angle := 0
    rect := ⟨380, 270, 40, 60⟩ }

/-- The 800 by 600 world rectangle of the boundary tests. -/
def worldRect800 : IRect := ⟨0, 0, 800, 600⟩

/-- Scenario B of the specification: the factory player moved to (30, 300)
    with velocity (-100, 50), as in test_left_wall_collision. -/
def scenarioPlayerB : MockPlayer :=
  { factoryPlayer with position := ⟨30, 300⟩, velocity := ⟨-100, 50⟩ }

/-- Direct assignment of the two thrust-active flags, as the scoring tests
    perform between update_score calls. -/
def setThrustFlags (w : GameWorld) (l r : Bool) : GameWorld :=
  { w with player :=
      { w.player with left_thrust_active := l, right_thrust_active := r } }

/-- A fresh factory game world with no bottles. -/
def baseWorld : GameWorld :=
  { player := factoryPlayer, bottles := [], world_bounds := worldRect800 }

/-- Scenario D of the specification: left thruster active for 0.3 s, none
    for 0.2 s, both for 0.5 s. -/
def scenarioDWorld : GameWorld :=
  let w1 := (setThrustFlags baseWorld true false).update_score (3 / 10)
  let w2 := (setThrustFlags w1 false false).update_score (2 / 10)
  (setThrustFlags w2 true true).update_score (5 / 10)

/-- A bottle co-located with the factory player start position. -/
def witnessBottle : MockBottle :=
  { position := ⟨400, 300⟩, rect := ⟨390, 290, 20, 20⟩ }

/-- A fresh factory game world holding the single co-located bottle. -/
def witnessWorld : GameWorld :=
  { player := factoryPlayer
    bottles := [witnessBottle]
    world_bounds := worldRect800
    bottles_remaining := 1 }

/-- The sample physics player of the unit tests: created at (400, 300). -/
def samplePlayer : Player := Player.init ⟨400, 300⟩

/-- A coasting vehicle state: speed 100 along x, no thrust. -/
def ctrPlayerVel : Player := { samplePlayer with velocity := ⟨100, 0⟩ }

/-- A vehicle state whose stored heading sits outside [0, 360). -/
def ctrPlayerAngle : Player := { samplePlayer with angle := 400 }

/-- Trivial cleanup function over unit payloads, for witness instances. -/
def unitCleanup : GState Unit → GState Unit × Unit := fun s => (s, ())

/-- Trivial startup function over unit payloads, for witness instances. -/
def unitStartup : GState Unit → Unit → String → GState Unit := fun s _ _ => s

/-- A game whose current state requests a transition to an unregistered
    state name. -/
def witnessGame : Game Unit :=
  { states := []
    current_state_name := "MENU"
    current_state :=
      { done := true, next_state_name := some "GAMEPLAY", quit := false
        payload := () }
    running := true }

/- Supporting lemmas. -/

@[simp]
lemma Vec2.add_x (a b : Vec2) : (a + b).x = a.x + b.x := rfl

@[simp]
lemma Vec2.add_y (a b : Vec2) : (a + b).y = a.y + b.y := rfl

@[simp]
lemma Vec2.neg_x (a : Vec2) : (-a).x = -a.x := rfl

@[simp]
lemma Vec2.neg_y (a : Vec2) : (-a).y = -a.y := rfl

@[simp]
lemma Vec2.smul_x (a : Vec2) (c : ℝ) : (a * c).x = a.x * c := rfl

@[simp]
lemma Vec2.smul_y (a : Vec2) (c : ℝ) : (a * c).y = a.y * c := rfl

@[simp]
lemma Vec2.div_x (a : Vec2) (c : ℝ) : (a / c).x = a.x / c := rfl

@[simp]
lemma Vec2.div_y (a : Vec2) (c : ℝ) : (a / c).y = a.y / c := rfl

lemma wrap360_eq_self {x : ℝ} (h0 : 0 ≤ x) (h1 : x < 360) : wrap360 x = x := by
  unfold wrap360
  have hfl : ⌊x / 360⌋ = 0 := by
    rw [Int.floor_eq_iff]
    constructor
    · push_cast
      positivity
    · push_cast
      rw [zero_add, div_lt_one (by norm_num : (0:ℝ) < 360)]
      linarith
  rw [hfl]
  ring

lemma wrap360_400 : wrap360 400 = 40 := by
  unfold wrap360
  have hfl : ⌊(400:ℝ) / 360⌋ = 1 := by
    rw [Int.floor_eq_iff]
    constructor
    · push_cast
      norm_num
    · push_cast
      norm_num
  rw [hfl]
  norm_num

lemma magnitude_100_0 : Vec2.magnitude ⟨100, 0⟩ = 100 := by
  unfold Vec2.magnitude
  rw [show ((100:ℝ)) ^ 2 + (0:ℝ) ^ 2 = 100 ^ 2 by norm_num,
    Real.sqrt_sq (by norm_num : (0:ℝ) ≤ 100)]

lemma clampAxis_no_clamp {pos v lo hi : ℝ} (h1 : lo ≤ pos) (h2 : pos ≤ hi) :
    clampAxis pos v lo hi = (pos, v) := by
  unfold clampAxis
  rw [if_neg (not_lt.mpr h1), if_neg (not_lt.mpr h2)]

lemma checkCollisionsAux_cons_collect (pr : IRect) (b : MockBottle)
    (rest : List MockBottle) (rem : ℤ) (st : String)
    (hb : (!b.collected && colliderect pr b.rect) = true) :
    checkCollisionsAux pr (b :: rest) rem st =
      ({ b with collected := true } ::
          (checkCollisionsAux pr rest (rem - 1)
            (if rem - 1 = 0 then "END_SCREEN" else st)).1,
        (checkCollisionsAux pr rest (rem - 1)
          (if rem - 1 = 0 then "END_SCREEN" else st)).2.1,
        (checkCollisionsAux pr rest (rem - 1)
          (if rem - 1 = 0 then "END_SCREEN" else st)).2.2) := by
  have hbc : b.collected = false := by
    cases hcol : b.collected
    · rfl
    · rw [hcol] at hb
      simp at hb
  simp only [checkCollisionsAux, hb]
  simp only [MockBottle.collect, hbc]
  simp

lemma checkCollisionsAux_cons_skip (pr : IRect) (b : MockBottle)
    (rest : List MockBottle) (rem : ℤ) (st : String)
    (hb : (!b.collected && colliderect pr b.rect) = false) :
    checkCollisionsAux pr (b :: rest) rem st =
      (b :: (checkCollisionsAux pr rest rem st).1,
        (checkCollisionsAux pr rest rem st).2.1,
        (checkCollisionsAux pr rest rem st).2.2) := by
  simp only [checkCollisionsAux, hb]
  simp

lemma checkCollisionsAux_length (pr : IRect) (bs : List MockBottle) :
    ∀ rem st, (checkCollisionsAux pr bs rem st).1.length = bs.length := by
  induction bs with
  | nil => intro rem st; rfl
  | cons b rest ih =>
    intro rem st
    by_cases hb : (!b.collected && colliderect pr b.rect) = true
    · rw [checkCollisionsAux_cons_collect pr b rest rem st hb]
      simp only [List.length_cons, ih]
    · have hb2 : (!b.collected && colliderect pr b.rect) = false := by
        simpa using hb
      rw [checkCollisionsAux_cons_skip pr b rest rem st hb2]
      simp only [List.length_cons, ih]

lemma newlyCollected_cons_true {pr : IRect} {b : MockBottle}
    (rest : List MockBottle)
    (hb : (!b.collected && colliderect pr b.rect) = true) :
    newlyCollected pr (b :: rest) = newlyCollected pr rest + 1 := by
  simp [newlyCollected, List.filter_cons, hb]

lemma newlyCollected_cons_false {pr : IRect} {b : MockBottle}
    (rest : List MockBottle)
    (hb : (!b.collected && colliderect pr b.rect) = false) :
    newlyCollected pr (b :: rest) = newlyCollected pr rest := by
  simp [newlyCollected, List.filter_cons, hb]

lemma checkCollisionsAux_rem (pr : IRect) (bs : List MockBottle) :
    ∀ rem st, (checkCollisionsAux pr bs rem st).2.1
      = rem - newlyCollected pr bs := by
  induction bs with
  | nil => intro rem st; simp [checkCollisionsAux, newlyCollected]
  | cons b rest ih =>
    intro rem st
    by_cases hb : (!b.collected && colliderect pr b.rect) = true
    · rw [checkCollisionsAux_cons_collect pr b rest rem st hb]
      simp only [ih, newlyCollected_cons_true rest hb]
      push_cast
      ring
    · have hb2 : (!b.collected && colliderect pr b.rect) = false := by
        simpa using hb
      rw [checkCollisionsAux_cons_skip pr b rest rem st hb2]
      simp only [ih, newlyCollected_cons_false rest hb2]

lemma countUncollected_nil : countUncollected [] = 0 := rfl

lemma checkCollisionsAux_uncollected (pr : IRect) (bs : List MockBottle) :
    ∀ rem st, countUncollected (checkCollisionsAux pr bs rem st).1
      + newlyCollected pr bs = countUncollected bs := by
  induction bs with
  | nil => intro rem st; simp [checkCollisionsAux, newlyCollected, countUncollected]
  | cons b rest ih =>
    intro rem st
    by_cases hb : (!b.collected && colliderect pr b.rect) = true
    · have hbc : b.collected = false := by
        cases hcol : b.collected
        · rfl
        · rw [hcol] at hb
          simp at hb
      rw [checkCollisionsAux_cons_collect pr b rest rem st hb]
      have h1 : countUncollected ({ b with collected := true } ::
          (checkCollisionsAux pr rest (rem - 1)
            (if rem - 1 = 0 then "END_SCREEN" else st)).1)
          = countUncollected (checkCollisionsAux pr rest (rem - 1)
            (if rem - 1 = 0 then "END_SCREEN" else st)).1 := by
        simp [countUncollected, List.filter_cons]
      have h2 : countUncollected (b :: rest) = countUncollected rest + 1 := by
        simp [countUncollected, List.filter_cons, hbc]
      rw [h1, h2, newlyCollected_cons_true rest hb, ← ih (rem - 1)
        (if rem - 1 = 0 then "END_SCREEN" else st)]
      omega
    · have hb2 : (!b.collected && colliderect pr b.rect) = false := by
        simpa using hb
      rw [checkCollisionsAux_cons_skip pr b rest rem st hb2]
      rcases hc : b.collected with hcv | hcv
      · have h1 : countUncollected (b :: (checkCollisionsAux pr rest rem st).1)
            = countUncollected (checkCollisionsAux pr rest rem st).1 + 1 := by
          simp [countUncollected, List.filter_cons, hc]
        have h2 : countUncollected (b :: rest) = countUncollected rest + 1 := by
          simp [countUncollected, List.filter_cons, hc]
        rw [h1, h2, newlyCollected_cons_false rest hb2, ← ih rem st]
        omega
      · have h1 : countUncollected (b :: (checkCollisionsAux pr rest rem st).1)
            = countUncollected (checkCollisionsAux pr rest rem st).1 := by
          simp [countUncollected, List.filter_cons, hc]
        have h2 : countUncollected (b :: rest) = countUncollected rest := by
          simp [countUncollected, List.filter_cons, hc]
        rw [h1, h2, newlyCollected_cons_false rest hb2, ← ih rem st]

lemma count_split (bs : List MockBottle) :
    countCollected bs + countUncollected bs = bs.length := by
  induction bs with
  | nil => rfl
  | cons b rest ih =>
    rcases hc : b.collected with hcv | hcv <;>
      · simp only [countCollected, countUncollected, List.filter_cons, hc,
          List.length_cons] at *
        simp at *
        omega

lemma checkCollisionsAux_all_blocked (pr : IRect) (bs : List MockBottle) :
    ∀ rem st, ∀ b ∈ (checkCollisionsAux pr bs rem st).1,
      (!b.collected && colliderect pr b.rect) = false := by
  induction bs with
  | nil =>
    intro rem st b hb
    simp [checkCollisionsAux] at hb
  | cons c rest ih =>
    intro rem st b hb
    by_cases hc : (!c.collected && colliderect pr c.rect) = true
    · rw [checkCollisionsAux_cons_collect pr c rest rem st hc] at hb
      simp only [List.mem_cons] at hb
      rcases hb with hb | hb
      · subst hb
        simp
      · exact ih _ _ b hb
    · have hc2 : (!c.collected && colliderect pr c.rect) = false := by
        simpa using hc
      rw [checkCollisionsAux_cons_skip pr c rest rem st hc2] at hb
      simp only [List.mem_cons] at hb
      rcases hb with hb | hb
      · subst hb
        exact hc2
      · exact ih _ _ b hb

lemma checkCollisionsAux_noop (pr : IRect) (bs : List MockBottle)
    (h : ∀ b ∈ bs, (!b.collected && colliderect pr b.rect) = false) :
    ∀ rem st, checkCollisionsAux pr bs rem st = (bs, rem, st) := by
  induction bs with
  | nil => intro rem st; rfl
  | cons c rest ih =>
    intro rem st
    have hc := h c (List.mem_cons_self c rest)
    rw [checkCollisionsAux_cons_skip pr c rest rem st hc]
    rw [ih (fun b hb => h b (List.mem_cons_of_mem c hb)) rem st]

/- Claim theorems. -/

/-- Claim C1: for every vehicle state and every positive dt, Player.update
    advances the state by exactly the algorithm of specification section 4.1:
    thrust sum and torque difference, forward direction from the pre-update
    heading, multiplicative angular drag then additive torque, heading
    integration wrapped into [0, 360), then semi-implicit Euler for velocity
    and position, in this exact order. -/
theorem player_update_matches_spec (s : Player) (dt : ℝ) (_hdt : 0 < dt) :
    Player.update s dt = specVehicleUpdate s dt := rfl

/-- Witness for claim C1 at the unit-test player and dt of one frame. -/
theorem player_update_matches_spec_witness :
    (0:ℝ) < 1 / 60 ∧
      Player.update samplePlayer (1 / 60) = specVehicleUpdate samplePlayer (1 / 60) :=
  ⟨by norm_num, player_update_matches_spec samplePlayer (1 / 60) (by norm_num)⟩

/-- Claim C8: spawning is deterministic. With the global RNG modelled as an
    explicitly passed stream, a seeded run of the spawning routine ignores
    the ambient generator state entirely: two runs with identical arguments
    and the same seed produce identical position sequences whatever global
    RNG states they start from. -/
theorem spawn_deterministic {R : Type} (seedF : ℕ → R)
    (randintF : R → ℤ → ℤ → ℤ × R) (W H : ℤ) (count : ℕ) (s : ℕ)
    (g1 g2 : R) :
    createGamePositions seedF randintF W H count (some s) g1
      = createGamePositions seedF randintF W H count (some s) g2 := rfl

/-- Claim C9: when next_state_name is not a key of the registered state
    table (in particular when it is None), flip_state only clears the
    running flag: the state table, the current-state name and the
    current-state pointer are untouched and neither cleanup nor startup is
    invoked, for every choice of cleanup and startup behaviour. -/
theorem flip_state_unregistered_halts {α β : Type}
    (cleanupF : GState α → GState α × β)
    (startupF : GState α → β → String → GState α) (g : Game α)
    (h : stateLookup g.current_state.next_state_name g.states = none) :
    Game.flip_state cleanupF startupF g = { g with running := false } := by
  unfold Game.flip_state
  unfold stateLookup at h
  cases hn : g.current_state.next_state_name with
  | none => simp only [hn]
  | some k =>
    rw [hn] at h
    have h2 : List.lookup k g.states = none := h
    simp only [hn, h2]

/-- Witness for claim C9: a game whose current state asks for the
    unregistered name GAMEPLAY over an empty state table. -/
theorem flip_state_unregistered_halts_witness :
    stateLookup witnessGame.current_state.next_state_name witnessGame.states
        = none ∧
      Game.flip_state unitCleanup unitStartup witnessGame
        = { witnessGame with running := false } :=
  ⟨rfl, flip_state_unregistered_halts unitCleanup unitStartup witnessGame rfl⟩

/-- Claim C3 counterexample: Player.update has no guard on nonpositive dt.
    A coasting vehicle updated with dt = -1/10 gains speed against drag
    (velocity x goes from 100 to 108), and a vehicle whose stored heading is
    400 has it rewrapped to 40 even at dt = 0. Either run refutes the claim
    that every dt at most zero leaves all state bit-identical. -/
theorem player_update_nonpositive_dt_not_noop :
    (Player.update ctrPlayerVel (-(1 / 10))).velocity.x
        ≠ ctrPlayerVel.velocity.x ∧
      (Player.update ctrPlayerAngle 0).angle ≠ ctrPlayerAngle.angle := by
  constructor
  · have hv : (Player.update ctrPlayerVel (-(1 / 10))).velocity.x = 108 := by
      simp only [Player.update, ctrPlayerVel, samplePlayer, Player.init,
        LINEAR_DRAG_COEFFICIENT, MASS, MAX_THRUST, MAX_TORQUE, ANGULAR_DRAG,
        Vec2.add_x, Vec2.smul_x, Vec2.div_x, Vec2.neg_x, magnitude_100_0]
      ring_nf
    have hv0 : ctrPlayerVel.velocity.x = 100 := rfl
    rw [hv, hv0]
    norm_num
  · have ha : (Player.update ctrPlayerAngle 0).angle = wrap360 400 := by
      simp only [Player.update, ctrPlayerAngle, samplePlayer, Player.init]
      norm_num
    have ha0 : ctrPlayerAngle.angle = 400 := rfl
    rw [ha, ha0, wrap360_400]
    norm_num

/-- Claim C3 (amended): with dt = 0 and the heading already inside [0, 360)
    (which holds for every state the game itself produces, since the update
    wraps the heading each tick and it starts at 0), Player.update leaves
    position, velocity, heading and angular velocity unchanged. For negative
    dt the update is not a no-op: the integration simply runs with the
    negative step, as the counterexample shows. -/
theorem player_update_zero_dt_noop (s : Player) (h0 : 0 ≤ s.angle)
    (h1 : s.angle < 360) :
    (Player.update s 0).position = s.position ∧
      (Player.update s 0).velocity = s.velocity ∧
      (Player.update s 0).angle = s.angle ∧
      (Player.update s 0).angular_velocity = s.angular_velocity := by
  refine ⟨?_, ?_, ?_, ?_⟩
  · simp only [Player.update]
    ext <;> simp
  · simp only [Player.update]
    ext <;> simp
  · simp only [Player.update, mul_zero, sub_zero, mul_one, zero_div, add_zero]
    exact wrap360_eq_self h0 h1
  · simp only [Player.update, mul_zero, sub_zero, mul_one, zero_div, add_zero]

/-- Witness for the amended claim C3 at the unit-test player. -/
theorem player_update_zero_dt_noop_witness :
    (0:ℝ) ≤ samplePlayer.angle ∧ samplePlayer.angle < 360 ∧
      ((Player.update samplePlayer 0).position = samplePlayer.position ∧
        (Player.update samplePlayer 0).velocity = samplePlayer.velocity ∧
        (Player.update samplePlayer 0).angle = samplePlayer.angle ∧
        (Player.update samplePlayer 0).angular_velocity
          = samplePlayer.angular_velocity) :=
  ⟨by norm_num [samplePlayer, Player.init],
    by norm_num [samplePlayer, Player.init],
    player_update_zero_dt_noop samplePlayer
      (by norm_num [samplePlayer, Player.init])
      (by norm_num [samplePlayer, Player.init])⟩

/-- Claim C4: for every nonnegative dt, update_score adds exactly dt per
    active thruster (2 dt for both, dt for one, 0 for none) and never
    decreases the score; and the scenario left-only 0.3 s, neither 0.2 s,
    both 0.5 s ends with score exactly 13/10. -/
theorem update_score_per_thruster (w : GameWorld) (dt : ℝ) (hdt : 0 ≤ dt) :
    ((w.update_score dt).score
        = w.score + dt * (thrustersActive w.player : ℝ)) ∧
      w.score ≤ (w.update_score dt).score ∧
      scenarioDWorld.score = 13 / 10 := by
  refine ⟨?_, ?_, ?_⟩
  · unfold GameWorld.update_score thrustersActive
    cases hl : w.player.left_thrust_active <;>
      cases hr : w.player.right_thrust_active <;>
        simp [hl, hr] <;> ring
  · unfold GameWorld.update_score
    cases hl : w.player.left_thrust_active <;>
      cases hr : w.player.right_thrust_active <;>
        simp [hl, hr] <;> linarith
  · norm_num [scenarioDWorld, setThrustFlags, GameWorld.update_score,
      baseWorld, factoryPlayer]

/-- Witness for claim C4 at the fresh factory world and one second. -/
theorem update_score_per_thruster_witness :
    (0:ℝ) ≤ 1 ∧
      (((baseWorld.update_score 1).score
          = baseWorld.score + 1 * (thrustersActive baseWorld.player : ℝ)) ∧
        baseWorld.score ≤ (baseWorld.update_score 1).score ∧
        scenarioDWorld.score = 13 / 10) :=
  ⟨by norm_num, update_score_per_thruster baseWorld 1 (by norm_num)⟩

/-- Claim C2: one boundary-resolving update always ends with the position
    inside the world rectangle shrunk by the rect half-extents on each axis,
    for every starting position and velocity, however large, and every
    nonnegative dt, provided the bounds are at least as large as the player
    rectangle. The final clamp admits no overshoot or tunnelling. -/
theorem mock_update_stays_in_bounds (p : MockPlayer) (dt : ℝ) (b : IRect)
    (_hdt : 0 ≤ dt)
    (hx : (b.left + (p.rect.w / 2 : ℕ) : ℤ) ≤ b.right - (p.rect.w / 2 : ℕ))
    (hy : (b.top + (p.rect.h / 2 : ℕ) : ℤ) ≤ b.bottom - (p.rect.h / 2 : ℕ)) :
    (((b.left + (p.rect.w / 2 : ℕ) : ℤ) : ℝ) ≤ (p.update dt b).position.x ∧
        (p.update dt b).position.x ≤ ((b.right - (p.rect.w / 2 : ℕ) : ℤ) : ℝ)) ∧
      ((b.top + (p.rect.h / 2 : ℕ) : ℤ) : ℝ) ≤ (p.update dt b).position.y ∧
        (p.update dt b).position.y ≤ ((b.bottom - (p.rect.h / 2 : ℕ) : ℤ) : ℝ) := by
  have hxR : (((b.left + (p.rect.w / 2 : ℕ) : ℤ) : ℝ))
      ≤ ((b.right - (p.rect.w / 2 : ℕ) : ℤ) : ℝ) := by exact_mod_cast hx
  have hyR : (((b.top + (p.rect.h / 2 : ℕ) : ℤ) : ℝ))
      ≤ ((b.bottom - (p.rect.h / 2 : ℕ) : ℤ) : ℝ) := by exact_mod_cast hy
  unfold MockPlayer.update
  refine ⟨⟨?_, ?_⟩, ?_, ?_⟩ <;>
    · simp only []
      unfold clampAxis
      split_ifs <;> first | linarith [hxR] | linarith [hyR]

/-- Witness for claim C2: the factory player in the 800 by 600 world with
    dt of one second. -/
theorem mock_update_stays_in_bounds_witness :
    ((0:ℝ) ≤ 1 ∧
        (worldRect800.left + (factoryPlayer.rect.w / 2 : ℕ) : ℤ)
          ≤ worldRect800.right - (factoryPlayer.rect.w / 2 : ℕ) ∧
        (worldRect800.top + (factoryPlayer.rect.h / 2 : ℕ) : ℤ)
          ≤ worldRect800.bottom - (factoryPlayer.rect.h / 2 : ℕ)) ∧
      ((((worldRect800.left + (factoryPlayer.rect.w / 2 : ℕ) : ℤ) : ℝ)
            ≤ (factoryPlayer.update 1 worldRect800).position.x ∧
          (factoryPlayer.update 1 worldRect800).position.x
            ≤ ((worldRect800.right - (factoryPlayer.rect.w / 2 : ℕ) : ℤ) : ℝ)) ∧
        ((worldRect800.top + (factoryPlayer.rect.h / 2 : ℕ) : ℤ) : ℝ)
            ≤ (factoryPlayer.update 1 worldRect800).position.y ∧
          (factoryPlayer.update 1 worldRect800).position.y
            ≤ ((worldRect800.bottom - (factoryPlayer.rect.h / 2 : ℕ) : ℤ) : ℝ)) :=
  ⟨⟨by norm_num, by decide, by decide⟩,
    mock_update_stays_in_bounds factoryPlayer 1 worldRect800 (by norm_num)
      (by decide) (by decide)⟩

/-- Claim C7, divergence of the code at the documented left-wall scenario:
    because the drag factor 0.95 to the power 0.1 is strictly below 1, the
    player starting at x = 30 with x velocity -100 travels strictly less
    than 10 pixels in the 0.1 s step and lands at 30 - 10 q with q in (0,1),
    strictly above the clamp threshold 20. No clamp fires, so the x position
    is not 20, the x velocity -100 q is not 0, and even the y velocity
    changes to 50 q, not the claimed unchanged 50. -/
theorem left_wall_scenario_divergence :
    (scenarioPlayerB.update (1 / 10) worldRect800).velocity.x ≠ 0 ∧
      (scenarioPlayerB.update (1 / 10) worldRect800).position.x ≠ 20 ∧
      (scenarioPlayerB.update (1 / 10) worldRect800).velocity.y ≠ 50 := by
  set q : ℝ := (0.95:ℝ) ^ ((1:ℝ) / 10) with hqdef
  have hq0 : (0:ℝ) < q := Real.rpow_pos_of_pos (by norm_num) _
  have hq1 : q < 1 := Real.rpow_lt_one (by norm_num) (by norm_num) (by norm_num)
  have heval :
      (scenarioPlayerB.update (1 / 10) worldRect800).velocity.x = -100 * q ∧
        (scenarioPlayerB.update (1 / 10) worldRect800).position.x
          = 30 + -100 * q * (1 / 10) ∧
        (scenarioPlayerB.update (1 / 10) worldRect800).velocity.y = 50 * q := by
    simp only [MockPlayer.update, scenarioPlayerB, factoryPlayer, worldRect800,
      IRect.left, IRect.right, IRect.top, IRect.bottom,
      Vec2.add_x, Vec2.add_y, Vec2.smul_x, Vec2.smul_y]
    norm_num
    rw [clampAxis_no_clamp (by linarith) (by linarith),
      clampAxis_no_clamp (by linarith) (by linarith)]
    rw [hqdef]
    norm_num
  refine ⟨?_, ?_, ?_⟩
  · rw [heval.1]
    nlinarith
  · rw [heval.2.1]
    nlinarith
  · rw [heval.2.2]
    nlinarith

/-- Claim C5: from a freshly created world (remaining count equal to the
    number of spawned bottles, none collected), after any number of
    check_collisions calls the collected count plus the remaining count
    equals the total spawned, the remaining count never increases from one
    call to the next, and it never drops below zero. -/
theorem check_collisions_conservation (w : GameWorld) (n : ℕ)
    (hrem : w.bottles_remaining = (w.bottles.length : ℤ))
    (hfresh : ∀ b ∈ w.bottles, b.collected = false) :
    ((countCollected ((GameWorld.check_collisions)^[n] w).bottles : ℤ)
          + ((GameWorld.check_collisions)^[n] w).bottles_remaining
        = (w.bottles.length : ℤ)) ∧
      ((GameWorld.check_collisions)^[n + 1] w).bottles_remaining
          ≤ ((GameWorld.check_collisions)^[n] w).bottles_remaining ∧
      0 ≤ ((GameWorld.check_collisions)^[n] w).bottles_remaining := by
  have key : ∀ m : ℕ,
      ((GameWorld.check_collisions)^[m] w).bottles_remaining
          = (countUncollected ((GameWorld.check_collisions)^[m] w).bottles : ℤ)
        ∧ ((GameWorld.check_collisions)^[m] w).bottles.length
          = w.bottles.length := by
    intro m
    induction m with
    | zero =>
      simp only [Function.iterate_zero, id_eq]
      refine ⟨?_, by trivial⟩
      rw [hrem]
      have huncoll : countUncollected w.bottles = w.bottles.length := by
        unfold countUncollected
        have : w.bottles.filter (fun b => !b.collected) = w.bottles := by
          rw [List.filter_eq_self]
          intro b hb
          simp [hfresh b hb]
        rw [this]
      rw [huncoll]
    | succ m ih =>
      rw [Function.iterate_succ_apply']
      constructor
      · simp only [GameWorld.check_collisions]
        rw [checkCollisionsAux_rem]
        have h1 := ih.1
        have h2 := checkCollisionsAux_uncollected
          ((GameWorld.check_collisions)^[m] w).player.rect
          ((GameWorld.check_collisions)^[m] w).bottles
          ((GameWorld.check_collisions)^[m] w).bottles_remaining
          ((GameWorld.check_collisions)^[m] w).state
        omega
      · simp only [GameWorld.check_collisions]
        rw [checkCollisionsAux_length, ih.2]
  refine ⟨?_, ?_, ?_⟩
  · have k1 := (key n).1
    have k2 := (key n).2
    have cs := count_split ((GameWorld.check_collisions)^[n] w).bottles
    rw [k1, ← k2]
    omega
  · rw [Function.iterate_succ_apply']
    simp only [GameWorld.check_collisions]
    rw [checkCollisionsAux_rem]
    omega
  · rw [(key n).1]
    exact_mod_cast Nat.zero_le _

/-- Witness for claim C5: the fresh single-bottle world, one call. -/
theorem check_collisions_conservation_witness :
    (witnessWorld.bottles_remaining = (witnessWorld.bottles.length : ℤ)
        ∧ ∀ b ∈ witnessWorld.bottles, b.collected = false) ∧
      (((countCollected ((GameWorld.check_collisions)^[1] witnessWorld).bottles : ℤ)
            + ((GameWorld.check_collisions)^[1] witnessWorld).bottles_remaining
          = (witnessWorld.bottles.length : ℤ)) ∧
        ((GameWorld.check_collisions)^[1 + 1] witnessWorld).bottles_remaining
            ≤ ((GameWorld.check_collisions)^[1] witnessWorld).bottles_remaining ∧
        0 ≤ ((GameWorld.check_collisions)^[1] witnessWorld).bottles_remaining) :=
  ⟨⟨rfl, by simp [witnessWorld, witnessBottle]⟩,
    check_collisions_conservation witnessWorld 1 rfl
      (by simp [witnessWorld, witnessBottle])⟩

/-- Claim C6: check_collisions is idempotent. With no change to the player
    or the bottles in between, a second call finds every overlapping bottle
    already collected, decrements nothing, flips no state, and returns a
    game world equal to the one after the first call. -/
theorem check_collisions_idempotent (w : GameWorld) :
    (w.check_collisions).check_collisions = w.check_collisions := by
  show GameWorld.check_collisions (GameWorld.check_collisions w)
    = GameWorld.check_collisions w
  simp only [GameWorld.check_collisions]
  rw [checkCollisionsAux_noop w.player.rect
    (checkCollisionsAux w.player.rect w.bottles w.bottles_remaining w.state).1
    (checkCollisionsAux_all_blocked w.player.rect w.bottles
      w.bottles_remaining w.state)]

/-- Claim C10: each GameplayState.update call raises the score by exactly
    the number of bottles whose rects overlap the player rect after this
    tick's movement, and removes exactly those bottles from the group (at
    most one freshly spawned bottle is appended when the spawn timer fires).
    The increment is a bottle count, independent of dt and thrust. -/
theorem gameplay_update_counts_and_removes {R : Type} (rectOf : Player → IRect)
    (randintF : R → ℤ → ℤ → ℤ × R) (s : GameplayState) (dt : ℝ) (g : R) :
    ((GameplayState.update rectOf randintF s dt g).1.score
        = s.score + ((s.bottles.filter fun br =>
            colliderect (rectOf (s.player.update dt)) br).length : ℤ)) ∧
      ∃ spawned : List IRect, spawned.length ≤ 1 ∧
        (GameplayState.update rectOf randintF s dt g).1.bottles
          = (s.bottles.filter fun br =>
              !colliderect (rectOf (s.player.update dt)) br) ++ spawned := by
  simp only [GameplayState.update]
  by_cases hi : s.bottle_spawn_interval ≤ s.bottle_spawn_timer + dt
  · rw [if_pos hi]
    exact ⟨rfl, ⟨[(spawnBottle randintF g).1], by norm_num, rfl⟩⟩
  · rw [if_neg hi]
    exact ⟨rfl, ⟨[], by norm_num, (List.append_nil _).symm⟩⟩
